import Mathlib

/-!
Verification development for the netgen-rs topology engine.

The definitions below are a shallow embedding of the repository's source:
src/topology.rs (parsing, the node/link tables, power-on ordering),
src/devices.rs (Interface/Router/Switch/LinkManager), src/lib.rs
(namespace creation and teardown) and src/bin/netgen.rs (the start/stop
subcommands). Pure functions are translated directly; the kernel-facing
operations are modelled as the sequence of operations the code issues.
-/

namespace Netgen

/-! ## Model of the external `ipnetwork` crate

The repository parses CIDR strings through the external `ipnetwork` crate
(`Ipv4Network::from_str`, `Ipv6Network::from_str`). The parsers below model
that dependency: dotted-quad IPv4 with octets 0..=255 (no leading zeros, as
std's `Ipv4Addr` parser), an optional `/` prefix bounded by the address
width, hex-group IPv6 with at most one elided run. -/

inductive IpNetworkError
  | invalidAddr (s : String)
  | invalidPrefixLen (s : String)
  | invalidCidrFormat (s : String)
  deriving DecidableEq

structure Ipv4Network where
  a : Nat
  b : Nat
  c : Nat
  d : Nat
  prefixLen : Nat
  deriving DecidableEq

structure Ipv6Network where
  groups : List Nat
  prefixLen : Nat
  deriving DecidableEq

inductive IpNetwork
  | V4 (n : Ipv4Network)
  | V6 (n : Ipv6Network)
  deriving DecidableEq

/-- Split a character list at every occurrence of `c` (like Rust's
`str::split`, which yields empty pieces between adjacent separators). -/
def splitOnChar (c : Char) : List Char → List (List Char)
  | [] => [[]]
  | x :: xs =>
    let r := splitOnChar c xs
    if x = c then [] :: r
    else
      match r with
      | [] => [[x]]
      | y :: ys => (x :: y) :: ys

def digitsToNat (l : List Char) : Nat :=
  l.foldl (fun n c => n * 10 + (c.toNat - 48)) 0

/-- Rust `u8::from_str` on a piece: digits only, value at most 255. -/
def parseU8 (l : List Char) : Option Nat :=
  if l.isEmpty || !(l.all Char.isDigit) then none
  else
    let v := digitsToNat l
    if v ≤ 255 then some v else none

/-- One octet as std's `Ipv4Addr` parser reads it: a `u8` with no leading
zero (only the octet "0" may start with a zero). -/
def parseOctet (l : List Char) : Option Nat :=
  if 1 < l.length && l.head? == some '0' then none else parseU8 l

def parseIpv4Addr (s : List Char) : Option (Nat × Nat × Nat × Nat) :=
  match (splitOnChar '.' s).mapM parseOctet with
  | some [a, b, c, d] => some (a, b, c, d)
  | _ => none

/-- Decimal prefix length: digits only, at most `width`. -/
def parsePrefixLen (width : Nat) (l : List Char) : Option Nat :=
  if l.isEmpty || !(l.all Char.isDigit) then none
  else
    let v := digitsToNat l
    if v ≤ width then some v else none

/-- Models `Ipv4Network::from_str` of the external `ipnetwork` crate. -/
def parseIpv4Network (s : String) : Except IpNetworkError Ipv4Network :=
  match splitOnChar '/' s.toList with
  | [addrPart] =>
    match parseIpv4Addr addrPart with
    | some (a, b, c, d) => .ok ⟨a, b, c, d, 32⟩
    | none => .error (.invalidAddr s)
  | [addrPart, prefPart] =>
    match parseIpv4Addr addrPart with
    | some (a, b, c, d) =>
      match parsePrefixLen 32 prefPart with
      | some p => .ok ⟨a, b, c, d, p⟩
      | none => .error (.invalidPrefixLen s)
    | none => .error (.invalidAddr s)
  | _ => .error (.invalidCidrFormat s)

def hexDigitToNat (c : Char) : Nat :=
  if c.isDigit then c.toNat - 48
  else if 'a' ≤ c && c ≤ 'f' then c.toNat - 87
  else c.toNat - 55

def isHexDigitChar (c : Char) : Bool :=
  c.isDigit || ('a' ≤ c && c ≤ 'f') || ('A' ≤ c && c ≤ 'F')

def parseHexGroup (l : List Char) : Option Nat :=
  if l.isEmpty || 4 < l.length || !(l.all isHexDigitChar) then none
  else some (l.foldl (fun n c => n * 16 + hexDigitToNat c) 0)

/-- Models `Ipv6Addr` parsing (simplified model of the external crate):
colon-separated hex groups, at most one elided `::` run. -/
def parseIpv6Addr (s : List Char) : Option (List Nat) :=
  let pieces := splitOnChar ':' s
  let empties := pieces.countP (·.isEmpty)
  let groups := pieces.filter (fun p => !p.isEmpty)
  match groups.mapM parseHexGroup with
  | some gs =>
    if empties = 0 then
      if gs.length = 8 then some gs else none
    else if empties ≤ 3 && gs.length ≤ 7 then some gs
    else none
  | none => none

/-- Models `Ipv6Network::from_str` of the external `ipnetwork` crate. -/
def parseIpv6Network (s : String) : Except IpNetworkError Ipv6Network :=
  match splitOnChar '/' s.toList with
  | [addrPart] =>
    match parseIpv6Addr addrPart with
    | some gs => .ok ⟨gs, 128⟩
    | none => .error (.invalidAddr s)
  | [addrPart, prefPart] =>
    match parseIpv6Addr addrPart with
    | some gs =>
      match parsePrefixLen 128 prefPart with
      | some p => .ok ⟨gs, p⟩
      | none => .error (.invalidPrefixLen s)
    | none => .error (.invalidAddr s)
  | _ => .error (.invalidCidrFormat s)

/-! ## The parsed document tree

`yaml_rust2::yaml::Yaml`, the opaque document tree the core consumes. Its
`Hash` (a `LinkedHashMap`) is modelled as an insertion-ordered association
list; `get` with a `Yaml::String` key returns the first pair whose key is
that string, which is `LinkedHashMap::get` for the keys the code looks up. -/

deriving instance DecidableEq for Except

inductive Yaml
  | real (s : String)
  | integer (n : Int)
  | string (s : String)
  | boolean (b : Bool)
  | array (xs : List Yaml)
  | hash (h : List (Yaml × Yaml))
  | aliasNode (n : Nat)
  | null
  | badValue

def hashGet (h : List (Yaml × Yaml)) (k : String) : Option Yaml :=
  match h with
  | [] => none
  | (key, v) :: rest =>
    match key with
    | .string s => if s = k then some v else hashGet rest k
    | _ => hashGet rest k

/-- Rust's derived `Debug` for `String` (escapes elided: the names the
repository formats contain no characters that `Debug` escapes). -/
def rustStrDebug (s : String) : String := "\"" ++ s ++ "\""

mutual

/-- Rust's derived `Debug` for `yaml_rust2::yaml::Yaml`. -/
def yamlDebugFmt : Yaml → String
  | .real s => "Real(" ++ rustStrDebug s ++ ")"
  | .integer n => "Integer(" ++ toString n ++ ")"
  | .string s => "String(" ++ rustStrDebug s ++ ")"
  | .boolean b => "Boolean(" ++ (cond b "true" "false") ++ ")"
  | .array xs => "Array([" ++ yamlListDebugFmt xs ++ "])"
  | .hash h => "Hash(\x7b" ++ yamlHashDebugFmt h ++ "\x7d)"
  | .aliasNode n => "Alias(" ++ toString n ++ ")"
  | .null => "Null"
  | .badValue => "BadValue"

def yamlListDebugFmt : List Yaml → String
  | [] => ""
  | [x] => yamlDebugFmt x
  | x :: y :: xs => yamlDebugFmt x ++ ", " ++ yamlListDebugFmt (y :: xs)

def yamlHashDebugFmt : List (Yaml × Yaml) → String
  | [] => ""
  | [(k, v)] => yamlDebugFmt k ++ ": " ++ yamlDebugFmt v
  | (k, v) :: p :: xs =>
    yamlDebugFmt k ++ ": " ++ yamlDebugFmt v ++ ", " ++ yamlHashDebugFmt (p :: xs)

end

/-! ## The error families of src/src/error.rs

External error payloads (`std::io::Error`, `nix::Error`, `rtnetlink::Error`)
carried in `source` fields are elided; the structured fields the code fills
are kept. `ConfigError::InvalidAddress` keeps its `ipnetwork` source. -/

inductive ConfigError
  | TopologyFileMissing
  | DuplicateLink (src dst : String)
  | DuplicateNode (node : String)
  | IncorrectType (field expected : String)
  | MissingField (field : String)
  | UnknownNode (node : String)
  | YamlSyntax (msg : String)
  | InvalidAddress (addr_type address interface : String) (source : IpNetworkError)
  deriving DecidableEq

inductive NamespaceError
  | PathCreation (path : String)
  | Mount (ns_type device : String)
  | Unmount (path : String)
  | Entry (device : String)
  | ReturnToMain
  | NotFound (device : String)
  | MainNotFound (path : String)
  | Fork (fork_function : String)
  | Unshare (ns_name : String)
  | FileOpen (path : String)
  deriving DecidableEq

inductive LinkError
  | NoInterface (iface : String)
  | AddressAdd (iface : String) (addr : IpNetwork)
  | ChangeStateUp (device : String) (ifindex : Nat)
  | ConnectionFailed
  | ExecuteFailed (operation : String)
  deriving DecidableEq

inductive NetError
  | BasicError (msg : String)
  | ConfigError (e : ConfigError)
  | NamespaceError (e : NamespaceError)
  | LinkError (e : LinkError)
  deriving DecidableEq

/-- The error type `crate::error::Error` that src/src/topology.rs and
src/src/bin/netgen.rs use. Its declaration is not among the repository's
source files; the constructors below are exactly the ones those sources
construct (`Error::ScanError`, `Error::IoError` wrapping the message built
with `IoError::other`, `Error::IncorrectYamlType`, `Error::GeneralError`). -/
inductive Error
  | ScanError (msg : String)
  | IoError (msg : String)
  | IncorrectYamlType (msg : String)
  | GeneralError (msg : String)
  deriving DecidableEq

/-! ## Devices (src/src/devices.rs) -/

structure Interface where
  name : String
  addresses : List IpNetwork
  deriving DecidableEq

def Interface.new (name : String) : Interface := ⟨name, []⟩

/-- Rust `str::split_once` on the literal pattern `!!!!`: the pieces before
and after the first occurrence. -/
def splitOnceBangsAux (acc : List Char) : List Char → Option (String × String)
  | '!' :: '!' :: '!' :: '!' :: rest => some (String.mk acc.reverse, String.mk rest)
  | c :: rest => splitOnceBangsAux (c :: acc) rest
  | [] => none

def splitOnceBangs (s : String) : Option (String × String) :=
  splitOnceBangsAux [] s.toList

/-- The while-let loop over one address list in Interface::from_yaml_config:
strings are parsed and collected in order; the loop stops silently at the
first element that is not a `Yaml::String`. On a parse failure the code
builds `ConfigError::InvalidAddress` whose `address` field is the literal
string "addr_str" (the variable name in quotes) and whose `interface` field
is the path built from `iface_name` (which already ends in `->`), another
`->`, the interface, the family and `->??`. -/
def collectV4 (ifacePath : String) : List Yaml → Except NetError (List IpNetwork)
  | (.string addr_str) :: rest =>
    match parseIpv4Network addr_str with
    | .ok ipNet => (collectV4 ifacePath rest).map (IpNetwork.V4 ipNet :: ·)
    | .error err =>
      .error (.ConfigError (.InvalidAddress "ipv4" "addr_str"
        (ifacePath ++ "->ipv4->??") err))
  | _ => .ok []

def collectV6 (ifacePath : String) : List Yaml → Except NetError (List IpNetwork)
  | (.string addr_str) :: rest =>
    match parseIpv6Network addr_str with
    | .ok ipNet => (collectV6 ifacePath rest).map (IpNetwork.V6 ipNet :: ·)
    | .error err =>
      .error (.ConfigError (.InvalidAddress "ipv6" "addr_str"
        (ifacePath ++ "->ipv6->??") err))
  | _ => .ok []

/-- Interface::from_yaml_config (src/src/devices.rs). `name` must be
`{router-name}!!!!{interface-name}`; the ipv4 and then ipv6 lists are read
from the config hash. -/
def Interface.from_yaml_config (name : String) (yaml_config : List (Yaml × Yaml)) :
    Except NetError Interface :=
  match splitOnceBangs name with
  | none =>
    .error (.BasicError ("Improperly formatter name in Interface::from_yaml_config. Received "
      ++ name ++ ".Must be in the format \x7brouter-name\x7d!!!!\x7binterface-name\x7d"))
  | some (router_name, iface_name) =>
    let routerPath := "routers->" ++ router_name ++ "->interfaces->"
    let ifacePath := routerPath ++ "->" ++ iface_name
    let v4 : Except NetError (List IpNetwork) :=
      match hashGet yaml_config "ipv4" with
      | some (.array items) => collectV4 ifacePath items
      | some .null => .ok []
      | some _ => .error (.ConfigError (.IncorrectType (ifacePath ++ "->ipv4??") "array"))
      | none => .ok []
    match v4 with
    | .error e => .error e
    | .ok addrs4 =>
      let v6 : Except NetError (List IpNetwork) :=
        match hashGet yaml_config "ipv6" with
        | some (.array items) => collectV6 ifacePath items
        | some .null => .ok []
        | some _ => .error (.ConfigError (.IncorrectType (ifacePath ++ "->ipv6??") "array"))
        | none => .ok []
      match v6 with
      | .error e => .error e
      | .ok addrs6 => .ok ⟨iface_name, addrs4 ++ addrs6⟩

structure Router where
  name : String
  file_path : Option String
  interfaces : List Interface
  pid : Option Nat
  deriving DecidableEq

def Router.new (name : String) : Router := ⟨name, none, [], none⟩

/-- The loop over the `interfaces` hash in Router::from_yaml_config: a
non-string key or a non-hash non-null config is an IncorrectType error; a
null config yields a bare interface. -/
def routerIfaces (rname : String) : List (Yaml × Yaml) → Except NetError (List Interface)
  | [] => .ok []
  | (ifaceNameY, ifaceCfg) :: rest =>
    match ifaceNameY with
    | .string iname =>
      match ifaceCfg with
      | .hash icfg =>
        match Interface.from_yaml_config (rname ++ "!!!!" ++ iname) icfg with
        | .ok i => (routerIfaces rname rest).map (i :: ·)
        | .error e => .error e
      | .null => (routerIfaces rname rest).map (Interface.new iname :: ·)
      | _ =>
        .error (.ConfigError (.IncorrectType
          ("routers->" ++ rname ++ "->interfaces->" ++ iname ++ "->??") "hash"))
    | _ =>
      .error (.ConfigError (.IncorrectType
        ("routers->" ++ rname ++ "->interfaces->[??:config]") "string"))

/-- Router::from_yaml_config (src/src/devices.rs). -/
def Router.from_yaml_config (name : String) (router_config : List (Yaml × Yaml)) :
    Except NetError Router :=
  match hashGet router_config "interfaces" with
  | some (.hash ifs) =>
    (routerIfaces name ifs).map (fun l => { Router.new name with interfaces := l })
  | some .null | none => .ok (Router.new name)
  | some _ =>
    .error (.ConfigError (.IncorrectType ("routers->" ++ name ++ "->interfaces->??") "hash"))

structure Switch where
  name : String
  ifindex : Option Nat
  interfaces : List Interface
  deriving DecidableEq

def Switch.new (name : String) : Switch := ⟨name, none, []⟩

def switchIfaces (sname : String) : List (Yaml × Yaml) → Except NetError (List Interface)
  | [] => .ok []
  | (k, v) :: rest =>
    match k with
    | .string iname =>
      match v with
      | .hash icfg =>
        match Interface.from_yaml_config (sname ++ "!!!!" ++ iname) icfg with
        | .ok i => (switchIfaces sname rest).map (i :: ·)
        | .error e => .error e
      | _ =>
        .error (.ConfigError (.IncorrectType
          ("switches.switch[" ++ sname ++ "].interfaces[config??]") "hash"))
    | _ =>
      .error (.ConfigError (.IncorrectType
        ("switches.switch[" ++ sname ++ "].interfaces[name??]") "string"))

/-- Switch::from_yaml_config (src/src/devices.rs): unlike Router, a missing
or null `interfaces` key is an IncorrectType error (the `_` arm). -/
def Switch.from_yaml_config (switch_name : String) (switch_config : List (Yaml × Yaml)) :
    Except NetError Switch :=
  match hashGet switch_config "interfaces" with
  | some (.hash ifs) =>
    (switchIfaces switch_name ifs).map (fun l => { Switch.new switch_name with interfaces := l })
  | _ =>
    .error (.ConfigError (.IncorrectType
      ("switches.switch[" ++ switch_name ++ "][config??]") "hash"))

inductive Node
  | Router (r : Router)
  | Switch (s : Switch)
  deriving DecidableEq

structure Link where
  src_device : String
  src_iface : String
  dst_device : String
  dst_iface : String
  deriving DecidableEq

def Link.src (l : Link) : String := l.src_device ++ ":" ++ l.src_iface

def Link.dst (l : Link) : String := l.dst_device ++ ":" ++ l.dst_iface

/-- Rust's derived `Debug` for Link, as `{:?}` formats it in the unknown-node
messages of Topology::parse_topology_config. -/
def linkDebugFmt (l : Link) : String :=
  "Link \x7b src_device: " ++ rustStrDebug l.src_device
    ++ ", src_iface: " ++ rustStrDebug l.src_iface
    ++ ", dst_device: " ++ rustStrDebug l.dst_device
    ++ ", dst_iface: " ++ rustStrDebug l.dst_iface ++ " \x7d"

/-! ## The topology and its parser (src/src/topology.rs)

`nodes: BTreeMap<String, Node>` is modelled as an association list kept in
ascending key order by the insert operation; iteration over the map is
iteration over the list. `links` is the `Vec<Link>` in push order. The
`runtime` field (a tokio handle) carries no topology state and is omitted. -/

structure Topology where
  nodes : List (String × Node)
  links : List Link
  deriving DecidableEq

def Topology.new : Topology := ⟨[], []⟩

def containsKey (m : List (String × Node)) (k : String) : Bool :=
  m.any (fun p => p.1 == k)

/-- Lexicographic order on character lists by code point, the order
`Ord for String` gives BTreeMap keys (for ASCII names code-point order and
byte order coincide). -/
def charListLtB : List Char → List Char → Bool
  | _, [] => false
  | [], _ :: _ => true
  | a :: as, b :: bs =>
    if a.toNat < b.toNat then true
    else if b.toNat < a.toNat then false
    else charListLtB as bs

def stringLtB (a b : String) : Bool := charListLtB a.toList b.toList

/-- The strict key order of the node map, as a proposition. -/
def strLt (a b : String) : Prop := stringLtB a b = true

/-- BTreeMap insert: place the pair at its ordered position, replacing an
equal key. -/
def btreeInsert (k : String) (v : Node) : List (String × Node) → List (String × Node)
  | [] => [(k, v)]
  | (k', v') :: rest =>
    if stringLtB k k' then (k, v) :: (k', v') :: rest
    else if k = k' then (k, v) :: rest
    else (k', v') :: btreeInsert k v rest

/-- Topology::link_exists: an existing link matches the candidate when the
formatted `device:iface` endpoint strings agree in the same orientation or
with src and dst swapped. -/
def link_exists (links : List Link) (link : Link) : Bool :=
  links.any (fun link2 =>
    (link.src == link2.src && link.dst == link2.dst)
    || (link.src == link2.dst && link.dst == link2.src))

/-- The router loop of parse_topology_config: each parsed router is rejected
when its name is already a node, otherwise inserted. -/
def insertRouters (nodes : List (String × Node)) :
    List Router → Except Error (List (String × Node))
  | [] => .ok nodes
  | r :: rest =>
    if containsKey nodes r.name then
      .error (.IoError ("Node " ++ r.name ++ " has been configured more than once"))
    else insertRouters (btreeInsert r.name (.Router r) nodes) rest

/-- The switch loop of parse_topology_config. -/
def insertSwitches (nodes : List (String × Node)) :
    List Switch → Except Error (List (String × Node))
  | [] => .ok nodes
  | s :: rest =>
    if containsKey nodes s.name then
      .error (.IoError ("Node " ++ s.name ++ " has been configured more than once"))
    else insertSwitches (btreeInsert s.name (.Switch s) nodes) rest

/-- The link loop of parse_topology_config: unknown src, unknown dst, then
duplicate check against the links accepted so far; accepted links are pushed
in order. -/
def addLinks (nodes : List (String × Node)) (links : List Link) :
    List Link → Except Error (List Link)
  | [] => .ok links
  | link :: rest =>
    if !containsKey nodes link.src_device then
      .error (.IoError ("src node name " ++ link.src_device ++ " configured in "
        ++ linkDebugFmt link ++ " does not exist"))
    else if !containsKey nodes link.dst_device then
      .error (.IoError ("dst node name " ++ link.dst_device ++ " configured in "
        ++ linkDebugFmt link ++ " does not exist"))
    else if link_exists links link then
      .error (.IoError ("link " ++ link.src ++ " <-> " ++ link.dst
        ++ " has been configured more than once"))
    else addLinks nodes (links ++ [link]) rest

/-- The entry loop of Topology::parse_router_configs: a key that is not a
string, or a value that is not a hash, is an IncorrectYamlType error carrying
the key's Debug text; an entry whose Router::from_yaml_config fails is
silently skipped (`if let Ok(router) = ...`). -/
def parseRouterEntries : List (Yaml × Yaml) → Except Error (List Router)
  | [] => .ok []
  | (k, v) :: rest =>
    match k, v with
    | .string rname, .hash rcfg =>
      match Router.from_yaml_config rname rcfg with
      | .ok r => (parseRouterEntries rest).map (r :: ·)
      | .error _ => parseRouterEntries rest
    | _, _ => .error (.IncorrectYamlType (yamlDebugFmt k))

def parse_router_configs : Yaml → Except Error (List Router)
  | .hash configs => parseRouterEntries configs
  | _ => .ok []

/-- The entry loop of Topology::parse_switch_configs: entries whose key is
not a string or whose value is not a hash are skipped (the if-let has no
else), and a failing Switch::from_yaml_config is skipped too. -/
def parseSwitchEntries : List (Yaml × Yaml) → Except Error (List Switch)
  | [] => .ok []
  | (k, v) :: rest =>
    match k, v with
    | .string sname, .hash scfg =>
      match Switch.from_yaml_config sname scfg with
      | .ok s => (parseSwitchEntries rest).map (s :: ·)
      | .error _ => parseSwitchEntries rest
    | _, _ => parseSwitchEntries rest

def parse_switch_configs : Yaml → Except Error (List Switch)
  | .hash configs => parseSwitchEntries configs
  | _ => .ok []

/-- One entry of the `links` array: a hash with all four fields present as
strings yields a Link; anything else is skipped. -/
def linkOfYaml : Yaml → Option Link
  | .hash h =>
    match hashGet h "src-device", hashGet h "src-iface",
          hashGet h "dst-device", hashGet h "dst-iface" with
    | some (.string sd), some (.string si), some (.string dd), some (.string di) =>
      some ⟨sd, si, dd, di⟩
    | _, _, _, _ => none
  | _ => none

def parse_links_configs : Yaml → Except Error (List Link)
  | .array configs => .ok (configs.filterMap linkOfYaml)
  | _ => .ok []

/-- The `routers` block of Topology::parse_topology_config. A failing
parse_router_configs falls into the TODO else branch: the error is dropped
and parsing continues with the switches. -/
def stageRouters (t : Topology) (topo : List (Yaml × Yaml)) : Except Error Topology :=
  match hashGet topo "routers" with
  | some rc =>
    match parse_router_configs rc with
    | .ok routers =>
      match insertRouters t.nodes routers with
      | .ok ns => .ok { t with nodes := ns }
      | .error e => .error e
    | .error _ => .ok t
  | none => .ok t

/-- The `switches` block: a failing parse_switch_configs is likewise dropped. -/
def stageSwitches (t : Topology) (topo : List (Yaml × Yaml)) : Except Error Topology :=
  match hashGet topo "switches" with
  | some sc =>
    match parse_switch_configs sc with
    | .ok switches =>
      match insertSwitches t.nodes switches with
      | .ok ns => .ok { t with nodes := ns }
      | .error e => .error e
    | .error _ => .ok t
  | none => .ok t

/-- The `links` block. -/
def stageLinks (t : Topology) (topo : List (Yaml × Yaml)) : Except Error Topology :=
  match hashGet topo "links" with
  | some lc =>
    match parse_links_configs lc with
    | .ok ls =>
      match addLinks t.nodes t.links ls with
      | .ok newLinks => .ok { t with links := newLinks }
      | .error e => .error e
    | .error _ => .ok t
  | none => .ok t

/-- Topology::parse_topology_config (src/src/topology.rs): routers, then
switches, then links; a non-hash document is accepted unchanged. The Rust
method mutates `self` and returns `Result<()>`; it is modelled as state
passing (on an error the partially mutated state is unobservable, because
Topology::from_yaml_str unwraps the result). -/
def parse_topology_config (t : Topology) (yaml_data : Yaml) : Except Error Topology :=
  match yaml_data with
  | .hash topo =>
    match stageRouters t topo with
    | .error e => .error e
    | .ok t1 =>
      match stageSwitches t1 topo with
      | .error e => .error e
      | .ok t2 => stageLinks t2 topo
  | _ => .ok t

/-- The document loop of Topology::from_yaml_str after the external YAML
tokenizer: parse_topology_config folded over the loaded documents, starting
from Topology::new. -/
def from_yaml_docs : Topology → List Yaml → Except Error Topology
  | t, [] => .ok t
  | t, d :: rest =>
    match parse_topology_config t d with
    | .ok t' => from_yaml_docs t' rest
    | .error e => .error e

/-! ## Power-on ordering (Topology::power_on and Topology::setup_links) -/

inductive TopOp
  | routerUp (name : String)
  | switchUp (name : String)
  | linkSetup (l : Link)
  | addIfaceAddrs (router : String)
  deriving DecidableEq

/-- The per-node power-on issued by the loop over `self.nodes` in
Topology::power_on: Router::power_on creates the router's namespace,
Switch::power_on creates the bridge (Node::power_on dispatches on the
variant). -/
def nodePowerOp (p : String × Node) : TopOp :=
  match p.2 with
  | .Router _ => .routerUp p.1
  | .Switch _ => .switchUp p.1

def routerAddrOp (p : String × Node) : Option TopOp :=
  match p.2 with
  | .Router _ => some (.addIfaceAddrs p.1)
  | .Switch _ => none

/-- Topology::setup_links: create every link in `self.links` order, then add
addresses for each router met while iterating `self.nodes`. -/
def setup_links_ops (t : Topology) : List TopOp :=
  t.links.map TopOp.linkSetup ++ t.nodes.filterMap routerAddrOp

/-- Topology::power_on: power on every node in BTreeMap iteration order,
then setup_links. -/
def power_on_ops (t : Topology) : List TopOp :=
  t.nodes.map nodePowerOp ++ setup_links_ops t

def routerNames (t : Topology) : List String :=
  t.nodes.filterMap (fun p => match p.2 with | .Router _ => some p.1 | .Switch _ => none)

def switchNames (t : Topology) : List String :=
  t.nodes.filterMap (fun p => match p.2 with | .Switch _ => some p.1 | .Router _ => none)

def linkSortKey (l : Link) : String := l.src ++ "|" ++ l.dst

def insertSortedLink (l : Link) : List Link → List Link
  | [] => [l]
  | x :: xs =>
    if stringLtB (linkSortKey x) (linkSortKey l) then x :: insertSortedLink l xs
    else l :: x :: xs

def sortLinks (ls : List Link) : List Link := ls.foldr insertSortedLink []

/-- The power-on order the specification asserts, written from the spec's
words for comparison with power_on_ops: all routers up first, then all
switches, then every link, then addresses, each phase iterated in canonical
sorted order. -/
def specPowerOnOps (t : Topology) : List TopOp :=
  (routerNames t).map TopOp.routerUp
    ++ (switchNames t).map TopOp.switchUp
    ++ (sortLinks t.links).map TopOp.linkSetup
    ++ (routerNames t).map TopOp.addIfaceAddrs

/-! ## Namespace creation (src/src/lib.rs) -/

def NS_DIR : String := "/tmp/netgen-rs/ns"

def DEVICES_NS_DIR : String := "/tmp/netgen-rs/ns/devices"

def PID_FILE : String := "/tmp/netgen-rs/ns/main/.pid"

structure DeviceDetails where
  name : String
  home_path : String
  deriving DecidableEq

def DeviceDetails.new : Option String → DeviceDetails
  | some name => ⟨name, DEVICES_NS_DIR ++ "/" ++ name⟩
  | none => ⟨"main", NS_DIR ++ "/main"⟩

def DeviceDetails.netns_path (d : DeviceDetails) : String := d.home_path ++ "/net"

def DeviceDetails.pidns_path (d : DeviceDetails) : String := d.home_path ++ "/pid"

/-- One process-level operation of mount_device / create_ns / enter_ns. -/
inductive ProcOp
  | unshareOp (newnet newpid : Bool)
  | forkOp
  | createDirAll (path : String)
  | createFile (path : String)
  | bindMount (src target : String)
  | writePidFile (path : String)
  | pauseOp
  | sleepSecs (n : Nat)
  | setnsNet (path : String)
  | setnsPid (path : String)
  | waitChild
  | exitZero
  deriving DecidableEq

/-- create_ns (src/src/lib.rs), run by the forked child: create the device
directory, create and bind-mount the net anchor, create and bind-mount the
pid anchor, write the child's pid to `.pid`, then pause. -/
def create_ns_ops (device : DeviceDetails) : List ProcOp :=
  [ .createDirAll device.home_path,
    .createFile device.netns_path,
    .bindMount "/proc/self/ns/net" device.netns_path,
    .createFile device.pidns_path,
    .bindMount "/proc/self/ns/pid" device.pidns_path,
    .writePidFile (device.home_path ++ "/.pid"),
    .pauseOp ]

/-- enter_ns(None) (src/src/lib.rs): open the main anchors, setns into the
net then the pid namespace, then fork so the pid namespace takes effect; the
parent waits for the child and exits with code 0 (`Pid::this() == pid`),
while the forked child carries on as the calling process. -/
def enter_ns_main_ops : List ProcOp :=
  [ .setnsNet (NS_DIR ++ "/main/net"),
    .setnsPid (NS_DIR ++ "/main/pid"),
    .forkOp,
    .waitChild,
    .exitZero ]

/-- The operations mount_device (src/src/lib.rs) performs in the calling
process, in program order: `unshare(CLONE_NEWNET | CLONE_NEWPID)` before the
fork — for every device, router or main — then the fork (whose child runs
create_ns_ops), a one-second sleep when the device is main, then
enter_ns(None). -/
def mount_device_caller_ops (device_name : Option String) : List ProcOp :=
  [ .unshareOp true true, .forkOp ]
    ++ (match device_name with | none => [.sleepSecs 1] | some _ => [])
    ++ enter_ns_main_ops

/-- The operations the child forked by mount_device performs. -/
def mount_device_child_ops (device_name : Option String) : List ProcOp :=
  create_ns_ops (DeviceDetails.new device_name)

def isUnshareOp : ProcOp → Bool
  | .unshareOp _ _ => true
  | _ => false

def usesNewPid : ProcOp → Bool
  | .unshareOp _ newpid => newpid
  | _ => false

/-- The namespace-creation shape claim C6 asserts of one device: the forked
child performs the unshare (the caller does not), and for a router no
CLONE_NEWPID is unshared anywhere. -/
def claimC6Holds (device_name : Option String) : Bool :=
  (mount_device_child_ops device_name).any isUnshareOp
    && (mount_device_caller_ops device_name).all (fun op => !isUnshareOp op)
    && (device_name.isNone
        || (mount_device_caller_ops device_name
            ++ mount_device_child_ops device_name).all (fun op => !usesNewPid op))

/-! ## The start and stop subcommands (src/src/bin/netgen.rs) -/

/-- The refusal diagnostic the start branch prints when the main pid file
already exists. -/
def runningDiagnostic : String :=
  "topology is currently running. Consider running 'netgen stop -t my-topo.yml' before starting again"

/-- The start branch of main: when `/tmp/netgen-rs/ns/main/.pid` opens, the
command returns `Error::GeneralError` before any device is created;
otherwise it creates the devices and links (returned as the operation
sequence). -/
def netgen_start (main_pid_file_exists : Bool) (t : Topology) : Except Error (List TopOp) :=
  if main_pid_file_exists then .error (.GeneralError runningDiagnostic)
  else .ok (power_on_ops t)

/-- Rust maps a `main` that returns `Err` to the generic failure exit code 1
(the std `Termination` instance for `Result`); `Ok` exits 0. No call in the
binary maps errors to any other exit code. -/
def processExitCode (r : Except Error (List TopOp)) : Nat :=
  match r with
  | .ok _ => 0
  | .error _ => 1

/-- The filesystem state under /tmp/netgen-rs/ns that stop manipulates:
which device directories exist under `devices/`, which of their `.pid`
files exist, whether the main net anchor is mounted and whether the main
`.pid` file exists. -/
structure NsFs where
  device_dirs : List String
  device_pid_files : List String
  main_net_mounted : Bool
  main_pid_file : Bool
  deriving DecidableEq

/-- Modelled from the spec: `delete_ns`, called by Router::power_off
(src/src/devices.rs), is not among the repository's source files. Spec §4.2
destroy(device_name): read `.pid`, send SIGKILL, `umount` the anchor, remove
the directory recursively; missing files are tolerated (idempotent
teardown). On the modelled filesystem this removes the device's directory
and `.pid` file whether or not they are present. -/
def delete_ns (name : String) (fs : NsFs) : NsFs :=
  { fs with
    device_dirs := fs.device_dirs.filter (fun d => d != name),
    device_pid_files := fs.device_pid_files.filter (fun d => d != name) }

/-- Topology::power_off: every node powered off in map order; only routers
touch the filesystem (Router::power_off calls delete_ns). -/
def power_off_fs : List (String × Node) → NsFs → NsFs
  | [], fs => fs
  | (n, .Router _) :: rest, fs => power_off_fs rest (delete_ns n fs)
  | (_, .Switch _) :: rest, fs => power_off_fs rest fs

/-- The stop branch of main (src/src/bin/netgen.rs): when the topology file
parses, power_off the topology; unmount the main net anchor (an error is
logged and ignored); kill the pids read from the main `.pid` file (process
state, not filesystem state); remove the main `.pid` file (the result is
ignored). Every step tolerates the piece being absent, so the function is
total. -/
def netgen_stop (parsed : Option Topology) (fs : NsFs) : NsFs :=
  let fs1 :=
    match parsed with
    | some t => power_off_fs t.nodes fs
    | none => fs
  { fs1 with main_net_mounted := false, main_pid_file := false }

/-! ## Address assignment (Interface::add_addresses, src/src/devices.rs) -/

/-- The netlink facts add_addresses consults: what `if_nametoindex` resolves
in the current namespace, and whether an address-add request succeeds. -/
structure NetEnv where
  ifindex_of : String → Option Nat
  addr_add_ok : Nat → IpNetwork → Bool

def addAddrsGo (ifaceName : String) (env : NetEnv) (ifindex : Nat) :
    List IpNetwork → Except NetError (List (Nat × IpNetwork))
  | [] => .ok []
  | addr :: rest =>
    if env.addr_add_ok ifindex addr then
      (addAddrsGo ifaceName env ifindex rest).map ((ifindex, addr) :: ·)
    else .error (.LinkError (.AddressAdd ifaceName addr))

/-- Interface::add_addresses (src/src/devices.rs): resolve the interface
name; when `if_nametoindex` fails, warn and return Ok having performed no
addition; otherwise add each configured address in order, failing with
LinkError::AddressAdd on a rejected request. The returned list is the
sequence of additions performed. -/
def Interface.add_addresses (i : Interface) (env : NetEnv) :
    Except NetError (List (Nat × IpNetwork)) :=
  match env.ifindex_of i.name with
  | none => .ok []
  | some ifindex => addAddrsGo i.name env ifindex i.addresses

def isNoInterfaceErr : NetError → Bool
  | .LinkError (.NoInterface _) => true
  | _ => false

/-! ## Interim veth names (LinkManager::create_link, src/src/devices.rs) -/

/-- The 62-character set of rand's `Alphanumeric` distribution. -/
def alphanumericCharset : List Char :=
  "ABCDEFGHIJKLMNOPQRSTUVWXYZabcdefghijklmnopqrstuvwxyz0123456789".toList

/-- One sample of `Alphanumeric` mapped through `char::from`. -/
def sampleAlphanumeric (i : Fin 62) : Char :=
  alphanumericCharset.getD i.val 'A'

/-- One interim name: `eth-` followed by four samples of the stream starting
at `start`. -/
def genInterimChars (rng : Nat → Fin 62) (start : Nat) : List Char :=
  "eth-".toList ++ (List.range 4).map (fun k => sampleAlphanumeric (rng (start + k)))

/-- The two interim names LinkManager::create_link draws for one veth pair:
the first name consumes four samples, the second the next four. No
uniqueness check or retry follows; the names are used as drawn. -/
def create_link_interim_names (rng : Nat → Fin 62) : String × String :=
  (String.mk (genInterimChars rng 0), String.mk (genInterimChars rng 4))

/-! ## Concrete documents used to instantiate and refute the claims -/

def linkYaml (sd si dd di : String) : Yaml :=
  .hash [(.string "src-device", .string sd), (.string "src-iface", .string si),
         (.string "dst-device", .string dd), (.string "dst-iface", .string di)]

/-! ## The key order: basic facts -/

theorem char_toNat_inj {a b : Char} (h : a.toNat = b.toNat) : a = b :=
  Char.ext (UInt32.ext h)

theorem charListLtB_irrefl : ∀ l : List Char, charListLtB l l = false
  | [] => rfl
  | a :: as => by simp [charListLtB, charListLtB_irrefl as]

theorem charListLtB_cons_iff (x y : Char) (as bs : List Char) :
    charListLtB (x :: as) (y :: bs) = true ↔
      x.toNat < y.toNat ∨ (x.toNat = y.toNat ∧ charListLtB as bs = true) := by
  simp only [charListLtB]
  split
  · rename_i h
    simp [h]
  · rename_i h
    split
    · rename_i h2
      constructor
      · intro hf
        cases hf
      · intro hor
        rcases hor with h3 | ⟨h3, _⟩
        · exact absurd h3 h
        · omega
    · rename_i h2
      have hx : x.toNat = y.toNat := by omega
      simp [hx]

theorem charListLtB_trans :
    ∀ {a b c : List Char}, charListLtB a b = true → charListLtB b c = true →
      charListLtB a c = true := by
  intro a
  induction a with
  | nil =>
    intro b c h1 h2
    cases b with
    | nil => simp [charListLtB] at h1
    | cons y bs =>
      cases c with
      | nil => simp [charListLtB] at h2
      | cons z cs => rfl
  | cons x as ih =>
    intro b c h1 h2
    cases b with
    | nil => simp [charListLtB] at h1
    | cons y bs =>
      cases c with
      | nil => simp [charListLtB] at h2
      | cons z cs =>
        rw [charListLtB_cons_iff] at h1 h2 ⊢
        rcases h1 with h1 | ⟨h1, h1'⟩
        · rcases h2 with h2 | ⟨h2, _⟩
          · exact Or.inl (by omega)
          · exact Or.inl (by omega)
        · rcases h2 with h2 | ⟨h2, h2'⟩
          · exact Or.inl (by omega)
          · exact Or.inr ⟨by omega, ih h1' h2'⟩

theorem charListLtB_flip :
    ∀ {a b : List Char}, charListLtB a b = false → a ≠ b → charListLtB b a = true := by
  intro a
  induction a with
  | nil =>
    intro b h hne
    cases b with
    | nil => exact absurd rfl hne
    | cons y bs => simp [charListLtB] at h
  | cons x as ih =>
    intro b h hne
    cases b with
    | nil => rfl
    | cons y bs =>
      have h' : ¬ (x.toNat < y.toNat ∨ (x.toNat = y.toNat ∧ charListLtB as bs = true)) := by
        rw [← charListLtB_cons_iff]
        simp [h]
      push_neg at h'
      obtain ⟨hxy, heq⟩ := h'
      rw [charListLtB_cons_iff]
      by_cases hyx : y.toNat < x.toNat
      · exact Or.inl hyx
      · have hx : x.toNat = y.toNat := by omega
        have hchar : x = y := char_toNat_inj hx
        have hbs : as ≠ bs := by
          intro hab
          exact hne (by rw [hchar, hab])
        have hfalse : charListLtB as bs = false := by
          have := heq hx
          simpa using this
        exact Or.inr ⟨hx.symm, ih hfalse hbs⟩

theorem strLt_trans {a b c : String} (h1 : strLt a b) (h2 : strLt b c) : strLt a c :=
  charListLtB_trans h1 h2

theorem strLt_irrefl (a : String) : ¬ strLt a a := by
  simp [strLt, stringLtB, charListLtB_irrefl]

theorem strLt_ne {a b : String} (h : strLt a b) : a ≠ b :=
  fun he => (strLt_irrefl b) (he ▸ h)

theorem string_toList_ne {a b : String} (h : a ≠ b) : a.toList ≠ b.toList := by
  intro hl
  apply h
  cases a
  cases b
  exact congrArg String.mk (by simpa [String.toList] using hl)

theorem strLt_flip {a b : String} (h : stringLtB a b = false) (hne : a ≠ b) : strLt b a :=
  charListLtB_flip h (string_toList_ne hne)

/-! ## Invariant: the node map's keys stay sorted -/

def keysSorted (m : List (String × Node)) : Prop :=
  (m.map Prod.fst).Sorted strLt

theorem mem_btreeInsert {k : String} {v : Node} :
    ∀ {m : List (String × Node)} {p : String × Node},
      p ∈ btreeInsert k v m → p = (k, v) ∨ p ∈ m := by
  intro m
  induction m with
  | nil =>
    intro p h
    simp [btreeInsert] at h
    simp [h]
  | cons hd tl ih =>
    obtain ⟨k', v'⟩ := hd
    intro p h
    simp only [btreeInsert] at h
    split at h
    · rcases List.mem_cons.mp h with h | h
      · exact Or.inl h
      · exact Or.inr h
    · split at h
      · rcases List.mem_cons.mp h with h | h
        · exact Or.inl h
        · exact Or.inr (List.mem_cons_of_mem _ h)
      · rcases List.mem_cons.mp h with h | h
        · exact Or.inr (h ▸ List.mem_cons_self _ _)
        · rcases ih h with h | h
          · exact Or.inl h
          · exact Or.inr (List.mem_cons_of_mem _ h)

theorem mem_map_fst_btreeInsert {k b : String} {v : Node} {m : List (String × Node)}
    (h : b ∈ (btreeInsert k v m).map Prod.fst) : b = k ∨ b ∈ m.map Prod.fst := by
  rcases List.mem_map.mp h with ⟨p, hp, rfl⟩
  rcases mem_btreeInsert hp with h | h
  · exact Or.inl (by rw [h])
  · exact Or.inr (List.mem_map_of_mem _ h)

theorem keysSorted_btreeInsert {k : String} {v : Node} :
    ∀ {m : List (String × Node)}, keysSorted m → keysSorted (btreeInsert k v m) := by
  intro m
  induction m with
  | nil =>
    intro _
    simp [keysSorted, btreeInsert]
  | cons hd tl ih =>
    obtain ⟨k', v'⟩ := hd
    intro hs
    rw [keysSorted, List.map_cons, List.sorted_cons] at hs
    obtain ⟨hall, htl⟩ := hs
    simp only [btreeInsert]
    split
    · rename_i hlt
      rw [keysSorted, List.map_cons, List.map_cons, List.sorted_cons]
      refine ⟨?_, ?_⟩
      · intro b hb
        rcases List.mem_cons.mp hb with rfl | hb
        · exact hlt
        · exact strLt_trans hlt (hall b hb)
      · rw [List.sorted_cons]
        exact ⟨hall, htl⟩
    · split
      · rename_i heq
        rw [keysSorted, List.map_cons, List.sorted_cons]
        exact ⟨fun b hb => heq ▸ hall b hb, htl⟩
      · rename_i hlt heq
        have hk : strLt k' k := strLt_flip (Bool.eq_false_iff.mpr hlt) heq
        rw [keysSorted, List.map_cons, List.sorted_cons]
        refine ⟨?_, ih htl⟩
        intro b hb
        rcases mem_map_fst_btreeInsert hb with rfl | h
        · exact hk
        · exact hall b h

theorem insertRouters_keysSorted :
    ∀ {rs : List Router} {nodes ns : List (String × Node)},
      insertRouters nodes rs = .ok ns → keysSorted nodes → keysSorted ns := by
  intro rs
  induction rs with
  | nil =>
    intro nodes ns h hs
    simp only [insertRouters] at h
    cases h
    exact hs
  | cons r rest ih =>
    intro nodes ns h hs
    simp only [insertRouters] at h
    split at h
    · cases h
    · exact ih h (keysSorted_btreeInsert hs)

theorem insertSwitches_keysSorted :
    ∀ {ss : List Switch} {nodes ns : List (String × Node)},
      insertSwitches nodes ss = .ok ns → keysSorted nodes → keysSorted ns := by
  intro ss
  induction ss with
  | nil =>
    intro nodes ns h hs
    simp only [insertSwitches] at h
    cases h
    exact hs
  | cons s rest ih =>
    intro nodes ns h hs
    simp only [insertSwitches] at h
    split at h
    · cases h
    · exact ih h (keysSorted_btreeInsert hs)

theorem stageRouters_keysSorted {t : Topology} {topo : List (Yaml × Yaml)} {t' : Topology}
    (h : stageRouters t topo = .ok t') (hs : keysSorted t.nodes) : keysSorted t'.nodes := by
  unfold stageRouters at h
  split at h
  · split at h
    · split at h
      · cases h
        exact insertRouters_keysSorted (by assumption) hs
      · cases h
    · cases h
      exact hs
  · cases h
    exact hs

theorem stageSwitches_keysSorted {t : Topology} {topo : List (Yaml × Yaml)} {t' : Topology}
    (h : stageSwitches t topo = .ok t') (hs : keysSorted t.nodes) : keysSorted t'.nodes := by
  unfold stageSwitches at h
  split at h
  · split at h
    · split at h
      · cases h
        exact insertSwitches_keysSorted (by assumption) hs
      · cases h
    · cases h
      exact hs
  · cases h
    exact hs

theorem stageLinks_nodes {t : Topology} {topo : List (Yaml × Yaml)} {t' : Topology}
    (h : stageLinks t topo = .ok t') : t'.nodes = t.nodes := by
  unfold stageLinks at h
  split at h
  · split at h
    · split at h
      · cases h
        rfl
      · cases h
    · cases h
      rfl
  · cases h
    rfl

theorem parse_topology_config_keysSorted {t : Topology} {y : Yaml} {t' : Topology}
    (h : parse_topology_config t y = .ok t') (hs : keysSorted t.nodes) : keysSorted t'.nodes := by
  unfold parse_topology_config at h
  split at h
  · rename_i topo
    split at h
    · cases h
    · rename_i t1 h1
      split at h
      · cases h
      · rename_i t2 h2
        rw [stageLinks_nodes h]
        exact stageSwitches_keysSorted h2 (stageRouters_keysSorted h1 hs)
  · cases h
    exact hs

theorem from_yaml_docs_keysSorted :
    ∀ {docs : List Yaml} {t t' : Topology},
      from_yaml_docs t docs = .ok t' → keysSorted t.nodes → keysSorted t'.nodes := by
  intro docs
  induction docs with
  | nil =>
    intro t t' h hs
    simp only [from_yaml_docs] at h
    cases h
    exact hs
  | cons d rest ih =>
    intro t t' h hs
    simp only [from_yaml_docs] at h
    cases h1 : parse_topology_config t d with
    | error e => rw [h1] at h; cases h
    | ok t1 =>
      rw [h1] at h
      exact ih h (parse_topology_config_keysSorted h1 hs)

/-! ## Claim C1: power-on ordering -/

/-- Scenario for C1: a router named after a switch in the sorted order, and
two links whose document order is not the sorted order. -/
def docC1 : Yaml :=
  .hash [(.string "routers", .hash [(.string "rb", .hash [])]),
         (.string "switches",
          .hash [(.string "aa", .hash [(.string "interfaces", .hash [])])]),
         (.string "links",
          .array [linkYaml "rb" "eth1" "aa" "p2", linkYaml "rb" "eth0" "aa" "p1"])]

/-- The topology docC1 parses to. -/
def topoC1 : Topology :=
  { nodes := [("aa", .Switch (Switch.new "aa")), ("rb", .Router (Router.new "rb"))],
    links := [⟨"rb", "eth1", "aa", "p2"⟩, ⟨"rb", "eth0", "aa", "p1"⟩] }

/-- Claim C1, counterexample: on the parsed topology topoC1, the operation
sequence Topology::power_on actually issues differs from the order the claim
asserts (routers-up, then switches-up, then links sorted): the switch `aa`
is powered on before the router `rb`, and the links run in document order,
not sorted order. -/
theorem C1_spec_order_counterexample :
    from_yaml_docs Topology.new [docC1] = .ok topoC1
      ∧ power_on_ops topoC1 ≠ specPowerOnOps topoC1 := by
  constructor
  · decide
  · decide

/-- Claim C1 (corrected): for every topology produced by parsing, power-on
processes all nodes — routers and switches interleaved — in ascending name
order (the node map's keys are sorted), then every link in document order,
then per-router address assignment in ascending name order; the operation
sequence is a deterministic function of the topology. -/
theorem C1_power_on_order (docs : List Yaml) (t : Topology)
    (h : from_yaml_docs Topology.new docs = .ok t) :
    (t.nodes.map Prod.fst).Sorted strLt
      ∧ power_on_ops t
          = t.nodes.map nodePowerOp ++ t.links.map TopOp.linkSetup
              ++ t.nodes.filterMap routerAddrOp := by
  constructor
  · exact from_yaml_docs_keysSorted h (by simp [keysSorted, Topology.new])
  · simp [power_on_ops, setup_links_ops]

/-- Claim C1, witness: the corrected ordering theorem instantiated on the
concrete document docC1. -/
theorem C1_power_on_order_witness :
    (topoC1.nodes.map Prod.fst).Sorted strLt
      ∧ power_on_ops topoC1
          = topoC1.nodes.map nodePowerOp ++ topoC1.links.map TopOp.linkSetup
              ++ topoC1.nodes.filterMap routerAddrOp :=
  C1_power_on_order [docC1] topoC1 (by decide)

/-! ## Claim C2: duplicate links -/

/-- Scenario B of the spec: the r2-sw1 link appears twice. -/
def docC2 : Yaml :=
  .hash [(.string "routers", .hash [(.string "r1", .hash []), (.string "r2", .hash [])]),
         (.string "switches",
          .hash [(.string "sw1", .hash [(.string "interfaces", .hash [])])]),
         (.string "links",
          .array [linkYaml "r1" "eth0" "sw1" "p1", linkYaml "r2" "eth0" "sw1" "p2",
                  linkYaml "r2" "eth0" "sw1" "p2"])]

/-- A link whose source device name contains a colon. -/
def lnkColonA : Link := ⟨"a:b", "c", "x", "i"⟩

/-- A link with a different source endpoint pair that formats identically. -/
def lnkColonB : Link := ⟨"a", "b:c", "x", "i"⟩

/-- Claim C2, counterexample: parsing the duplicate-link document is
rejected with `Error::IoError` (no DuplicateLink value is constructed: the
error type used by parse_topology_config has no such variant), and
link_exists compares formatted `device:iface` strings, so it also returns
true for a candidate whose source endpoint pair differs from both endpoint
pairs of the stored link (colon trickery), refuting the stated
exactly-when-the-same-unordered-pair condition. -/
theorem C2_duplicate_link_counterexample :
    from_yaml_docs Topology.new [docC2]
        = .error (.IoError "link r2:eth0 <-> sw1:p2 has been configured more than once")
      ∧ link_exists [lnkColonA] lnkColonB = true
      ∧ (lnkColonB.src_device, lnkColonB.src_iface) ≠ (lnkColonA.src_device, lnkColonA.src_iface)
      ∧ (lnkColonB.src_device, lnkColonB.src_iface) ≠ (lnkColonA.dst_device, lnkColonA.dst_iface) := by
  refine ⟨by decide, by decide, by decide, by decide⟩

/-- Claim C2 (corrected): link_exists returns true exactly when the links
list contains a link whose formatted `device:iface` endpoint strings match
the candidate's in the same orientation or with src and dst swapped (for
colon-free device names this is the unordered endpoint pair), and the link
loop of parse_topology_config rejects such a candidate with an IoError
message naming both endpoints, not with a DuplicateLink variant. -/
theorem C2_link_exists_duplicate :
    (∀ (links : List Link) (l : Link),
      link_exists links l = true ↔
        ∃ l2 ∈ links, (l.src = l2.src ∧ l.dst = l2.dst) ∨ (l.src = l2.dst ∧ l.dst = l2.src))
      ∧ (∀ (nodes : List (String × Node)) (links : List Link) (l : Link) (rest : List Link),
          containsKey nodes l.src_device = true →
          containsKey nodes l.dst_device = true →
          link_exists links l = true →
          addLinks nodes links (l :: rest)
            = .error (.IoError ("link " ++ l.src ++ " <-> " ++ l.dst
                ++ " has been configured more than once"))) := by
  constructor
  · intro links l
    simp [link_exists, List.any_eq_true, Bool.or_eq_true, Bool.and_eq_true, beq_iff_eq]
  · intro nodes links l rest h1 h2 h3
    simp [addLinks, h1, h2, h3]

def nodesC2w : List (String × Node) :=
  [("r2", .Router (Router.new "r2")), ("sw1", .Switch (Switch.new "sw1"))]

def lnkC2w : Link := ⟨"r2", "eth0", "sw1", "p2"⟩

/-- Claim C2, witness: the duplicate-rejection branch instantiated at the
repeated r2-sw1 link. -/
theorem C2_link_exists_duplicate_witness :
    addLinks nodesC2w [lnkC2w] [lnkC2w]
      = .error (.IoError ("link " ++ lnkC2w.src ++ " <-> " ++ lnkC2w.dst
          ++ " has been configured more than once")) :=
  C2_link_exists_duplicate.2 nodesC2w [lnkC2w] lnkC2w [] (by decide) (by decide) (by decide)

/-! ## Claim C3: duplicate node names -/

/-- A router and a switch that share the name r1. -/
def docC3 : Yaml :=
  .hash [(.string "routers", .hash [(.string "r1", .hash [])]),
         (.string "switches",
          .hash [(.string "r1", .hash [(.string "interfaces", .hash [])])])]

/-- Claim C3, counterexample: the document in which a router and a switch
share the name r1 is rejected with `Error::IoError`, not with a
DuplicateNode value (the error type parse_topology_config returns has no
such variant). -/
theorem C3_duplicate_node_counterexample :
    from_yaml_docs Topology.new [docC3]
      = .error (.IoError "Node r1 has been configured more than once") := by
  decide

/-- Claim C3 (corrected): a second node with an already-present name is
rejected with an IoError whose message names the node (not a DuplicateNode
variant), and no parsed topology ever carries duplicate node names: the
names of every successfully parsed topology are pairwise distinct. -/
theorem C3_duplicate_node :
    (∀ (docs : List Yaml) (t : Topology),
      from_yaml_docs Topology.new docs = .ok t →
        (t.nodes.map Prod.fst).Pairwise (· ≠ ·))
      ∧ (∀ (nodes : List (String × Node)) (sw : Switch) (rest : List Switch),
          containsKey nodes sw.name = true →
          insertSwitches nodes (sw :: rest)
            = .error (.IoError ("Node " ++ sw.name ++ " has been configured more than once"))) := by
  constructor
  · intro docs t h
    have hs := from_yaml_docs_keysSorted h (by simp [keysSorted, Topology.new])
    exact List.Pairwise.imp strLt_ne hs
  · intro nodes sw rest h
    simp [insertSwitches, h]

/-- Two distinct routers: a topology C3's uniqueness theorem instantiates on. -/
def docC3ok : Yaml :=
  .hash [(.string "routers", .hash [(.string "r1", .hash []), (.string "r2", .hash [])])]

def topoC3ok : Topology :=
  { nodes := [("r1", .Router (Router.new "r1")), ("r2", .Router (Router.new "r2"))],
    links := [] }

def nodesC3w : List (String × Node) := [("r9", .Router (Router.new "r9"))]

/-- Claim C3, witness: name uniqueness on the parsed two-router topology,
and the duplicate rejection at a switch whose name r9 is already taken. -/
theorem C3_duplicate_node_witness :
    (topoC3ok.nodes.map Prod.fst).Pairwise (· ≠ ·)
      ∧ insertSwitches nodesC3w [Switch.new "r9"]
          = .error (.IoError "Node r9 has been configured more than once") :=
  ⟨C3_duplicate_node.1 [docC3ok] topoC3ok (by decide),
   C3_duplicate_node.2 nodesC3w (Switch.new "r9") [] (by decide)⟩

/-! ## Claim C4: unknown link endpoints -/

/-- Scenario C of the spec: a link referencing the undeclared node r3. -/
def docC4 : Yaml :=
  .hash [(.string "routers", .hash [(.string "r1", .hash []), (.string "r2", .hash [])]),
         (.string "switches",
          .hash [(.string "sw1", .hash [(.string "interfaces", .hash [])])]),
         (.string "links", .array [linkYaml "r3" "eth0" "sw1" "p1"])]

/-- Claim C4, counterexample: the document whose link references r3 is
rejected with `Error::IoError` carrying the formatted message (the error
type parse_topology_config returns has no UnknownNode variant). -/
theorem C4_unknown_node_counterexample :
    from_yaml_docs Topology.new [docC4]
      = .error (.IoError ("src node name r3 configured in Link \x7b src_device: \"r3\", src_iface: \"eth0\", dst_device: \"sw1\", dst_iface: \"p1\" \x7d does not exist")) := by
  decide

/-- Claim C4 (corrected): a link whose src_device (or, with src known, whose
dst_device) is not a declared node is rejected by the link loop with an
IoError message naming the unknown device, not with an UnknownNode variant. -/
theorem C4_unknown_node :
    (∀ (nodes : List (String × Node)) (links : List Link) (l : Link) (rest : List Link),
      containsKey nodes l.src_device = false →
      addLinks nodes links (l :: rest)
        = .error (.IoError ("src node name " ++ l.src_device ++ " configured in "
            ++ linkDebugFmt l ++ " does not exist")))
      ∧ (∀ (nodes : List (String × Node)) (links : List Link) (l : Link) (rest : List Link),
          containsKey nodes l.src_device = true →
          containsKey nodes l.dst_device = false →
          addLinks nodes links (l :: rest)
            = .error (.IoError ("dst node name " ++ l.dst_device ++ " configured in "
                ++ linkDebugFmt l ++ " does not exist"))) := by
  constructor
  · intro nodes links l rest h1
    simp [addLinks, h1]
  · intro nodes links l rest h1 h2
    simp [addLinks, h1, h2]

def lnkC4w : Link := ⟨"r3", "eth0", "sw1", "p1"⟩

/-- Claim C4, witness: the unknown-src rejection at the concrete r3 link
against an empty node table. -/
theorem C4_unknown_node_witness :
    addLinks [] [] [lnkC4w]
      = .error (.IoError ("src node name " ++ lnkC4w.src_device ++ " configured in "
          ++ linkDebugFmt lnkC4w ++ " does not exist")) :=
  C4_unknown_node.1 [] [] lnkC4w [] (by decide)

/-! ## Claim C5: invalid CIDR reporting (code bug) -/

/-- Scenario F of the spec: r1's eth0 carries the unparsable `10.0.0.300/24`. -/
def docC5 : Yaml :=
  .hash [(.string "routers",
          .hash [(.string "r1",
                  .hash [(.string "interfaces",
                          .hash [(.string "eth0",
                                  .hash [(.string "ipv4",
                                          .array [.string "10.0.0.300/24"])])])])])]

/-- Claim C5 (code bug, evaluated): Interface::from_yaml_config builds
InvalidAddress whose `address` field is the literal string "addr_str" (the
variable name in quotes, not the offending address) and whose field path is
`routers->r1->interfaces->->eth0->ipv4->??` (a doubled arrow and a `??`
suffix, not `routers->r1->interfaces->eth0->ipv4`); and the whole document
is then accepted, not rejected: parse_router_configs drops the failing
router with `if let Ok`, so parsing returns an empty topology. -/
theorem C5_invalid_address_eval :
    Interface.from_yaml_config "r1!!!!eth0" [(.string "ipv4", .array [.string "10.0.0.300/24"])]
        = .error (.ConfigError (.InvalidAddress "ipv4" "addr_str"
            "routers->r1->interfaces->->eth0->ipv4->??" (.invalidAddr "10.0.0.300/24")))
      ∧ from_yaml_docs Topology.new [docC5] = .ok Topology.new := by
  refine ⟨by decide, by decide⟩

/-! ## Claim C6: unshare/fork order and flags -/

/-- Claim C6, counterexample: for the router device r1 the asserted shape is
false — the unshare is performed by the calling process before the fork
(the child performs none), and CLONE_NEWPID is unshared for the router, not
only for main. -/
theorem C6_unshare_counterexample :
    claimC6Holds (some "r1") = false
      ∧ mount_device_caller_ops (some "r1")
          = [.unshareOp true true, .forkOp] ++ enter_ns_main_ops := by
  refine ⟨by decide, by decide⟩

/-- Claim C6 (corrected): for every device — router or main — mount_device
itself unshares CLONE_NEWNET and CLONE_NEWPID together, before forking; the
forked child performs no unshare, and instead creates the device directory,
creates and bind-mounts both the net and the pid anchor under
/tmp/netgen-rs/ns/devices/<name>, writes `.pid` and pauses. -/
theorem C6_unshare_order :
    ∀ name : String,
      mount_device_caller_ops (some name)
          = [.unshareOp true true, .forkOp] ++ enter_ns_main_ops
        ∧ mount_device_caller_ops none
            = [.unshareOp true true, .forkOp] ++ [.sleepSecs 1] ++ enter_ns_main_ops
        ∧ mount_device_child_ops (some name)
            = [ .createDirAll (DEVICES_NS_DIR ++ "/" ++ name),
                .createFile (DEVICES_NS_DIR ++ "/" ++ name ++ "/net"),
                .bindMount "/proc/self/ns/net" (DEVICES_NS_DIR ++ "/" ++ name ++ "/net"),
                .createFile (DEVICES_NS_DIR ++ "/" ++ name ++ "/pid"),
                .bindMount "/proc/self/ns/pid" (DEVICES_NS_DIR ++ "/" ++ name ++ "/pid"),
                .writePidFile (DEVICES_NS_DIR ++ "/" ++ name ++ "/.pid"),
                .pauseOp ]
        ∧ (mount_device_child_ops (some name)).all (fun op => !isUnshareOp op) = true := by
  intro name
  refine ⟨rfl, rfl, rfl, ?_⟩
  simp [mount_device_child_ops, create_ns_ops, isUnshareOp]

/-! ## Claim C7: interim veth names -/

/-- Claim C7 (corrected): every interim name create_link generates is
`eth-` followed by exactly four characters drawn from the 62-character
alphanumeric set, and the two names of one veth pair are drawn independently
with no uniqueness check or retry. -/
theorem C7_interim_name_form :
    ∀ (rng : Nat → Fin 62) (start : Nat),
      genInterimChars rng start
          = "eth-".toList ++ (List.range 4).map (fun k => sampleAlphanumeric (rng (start + k)))
        ∧ (genInterimChars rng start).length = 8
        ∧ (∀ c ∈ (List.range 4).map (fun k => sampleAlphanumeric (rng (start + k))),
            c ∈ alphanumericCharset)
        ∧ create_link_interim_names rng
            = (String.mk (genInterimChars rng 0), String.mk (genInterimChars rng 4)) := by
  intro rng start
  have hmem : ∀ i : Fin 62, sampleAlphanumeric i ∈ alphanumericCharset := by decide
  have h4 : ("eth-".toList).length = 4 := by decide
  refine ⟨rfl, ?_, ?_, rfl⟩
  · simp [genInterimChars, h4]
  · intro c hc
    rcases List.mem_map.mp hc with ⟨k, _, rfl⟩
    exact hmem (rng (start + k))

/-- The constant stream: every sample is the first alphanumeric character. -/
def constRngA : Nat → Fin 62 := fun _ => 0

/-- Claim C7, counterexample: under the constant random stream both interim
names of a single link come out equal (`eth-AAAA`), and create_link uses
them as drawn — no regeneration or retry exists, so distinctness is not
guaranteed. -/
theorem C7_interim_collision_counterexample :
    (create_link_interim_names constRngA).1 = (create_link_interim_names constRngA).2
      ∧ (create_link_interim_names constRngA).1 = "eth-AAAA" := by
  refine ⟨by decide, by decide⟩

/-! ## Claim C8: the concurrent-start guard -/

/-- Claim C8, counterexample: with the main pid file present, start refuses
with the diagnostic, but the process exit code is the generic failure code
1, not 3 (main returns `Err`, and Rust's Termination maps that to 1; no
code maps errors to exit code 3). -/
theorem C8_exit_code_counterexample :
    netgen_start true Topology.new = .error (.GeneralError runningDiagnostic)
      ∧ processExitCode (netgen_start true Topology.new) = 1
      ∧ processExitCode (netgen_start true Topology.new) ≠ 3 := by
  refine ⟨by decide, by decide, by decide⟩

/-- Claim C8 (corrected): whenever the main `.pid` file exists at start, the
command returns the diagnostic error before creating any device, and the
process exits with the generic failure code 1 (not 3). -/
theorem C8_start_guard :
    ∀ t : Topology,
      netgen_start true t = .error (.GeneralError runningDiagnostic)
        ∧ processExitCode (netgen_start true t) = 1 := by
  intro t
  exact ⟨rfl, rfl⟩

/-! ## Claim C9: idempotent teardown -/

theorem delete_ns_idem (n : String) (fs : NsFs) :
    delete_ns n (delete_ns n fs) = delete_ns n fs := by
  simp [delete_ns, List.filter_filter]

theorem delete_ns_comm (n m : String) (fs : NsFs) :
    delete_ns n (delete_ns m fs) = delete_ns m (delete_ns n fs) := by
  simp only [delete_ns]
  rw [List.filter_comm, List.filter_comm fun d => d != n]

theorem power_off_fs_delete_ns :
    ∀ (nodes : List (String × Node)) (n : String) (fs : NsFs),
      power_off_fs nodes (delete_ns n fs) = delete_ns n (power_off_fs nodes fs) := by
  intro nodes
  induction nodes with
  | nil => intro n fs; rfl
  | cons hd rest ih =>
    intro n fs
    obtain ⟨n', node⟩ := hd
    cases node with
    | Router r =>
      simp only [power_off_fs]
      rw [delete_ns_comm, ih]
    | Switch s =>
      simp only [power_off_fs]
      exact ih n fs

theorem power_off_fs_idem :
    ∀ (nodes : List (String × Node)) (fs : NsFs),
      power_off_fs nodes (power_off_fs nodes fs) = power_off_fs nodes fs := by
  intro nodes
  induction nodes with
  | nil => intro fs; rfl
  | cons hd rest ih =>
    intro fs
    obtain ⟨n, node⟩ := hd
    cases node with
    | Router r =>
      simp only [power_off_fs]
      rw [← power_off_fs_delete_ns, delete_ns_idem, ih]
    | Switch s =>
      simp only [power_off_fs]
      exact ih fs

theorem power_off_fs_flags :
    ∀ (nodes : List (String × Node)) (fs : NsFs) (b c : Bool),
      power_off_fs nodes { fs with main_net_mounted := b, main_pid_file := c }
        = { power_off_fs nodes fs with main_net_mounted := b, main_pid_file := c } := by
  intro nodes
  induction nodes with
  | nil => intro fs b c; rfl
  | cons hd rest ih =>
    intro fs b c
    obtain ⟨n, node⟩ := hd
    cases node with
    | Router r =>
      simp only [power_off_fs]
      rw [show delete_ns n { fs with main_net_mounted := b, main_pid_file := c }
            = { delete_ns n fs with main_net_mounted := b, main_pid_file := c } from rfl]
      exact ih (delete_ns n fs) b c
    | Switch s =>
      simp only [power_off_fs]
      exact ih fs b c

/-- Claim C9 (confirmed): stop is idempotent on the filesystem state under
/tmp/netgen-rs/ns — running the stop branch twice leaves exactly the state
one run leaves — and stop is total on every state, including states with
`.pid` files, mounts or directories already missing; after a stop the main
anchors are gone. -/
theorem C9_stop_idempotent :
    ∀ (parsed : Option Topology) (fs : NsFs),
      netgen_stop parsed (netgen_stop parsed fs) = netgen_stop parsed fs
        ∧ (netgen_stop parsed fs).main_pid_file = false
        ∧ (netgen_stop parsed fs).main_net_mounted = false := by
  intro parsed fs
  cases parsed with
  | none => exact ⟨rfl, rfl, rfl⟩
  | some t =>
    refine ⟨?_, rfl, rfl⟩
    simp only [netgen_stop]
    rw [power_off_fs_flags, power_off_fs_idem]

/-! ## Claim C10: addresses silently skipped when the ifindex is missing -/

theorem addAddrsGo_no_noInterface (n : String) (env : NetEnv) (idx : Nat) :
    ∀ (addrs : List IpNetwork) (e : NetError),
      addAddrsGo n env idx addrs = .error e → isNoInterfaceErr e = false := by
  intro addrs
  induction addrs with
  | nil =>
    intro e h
    simp [addAddrsGo] at h
  | cons a rest ih =>
    intro e h
    simp only [addAddrsGo] at h
    split at h
    · cases hrec : addAddrsGo n env idx rest with
      | ok l => rw [hrec] at h; simp [Except.map] at h
      | error e' =>
        rw [hrec] at h
        simp [Except.map] at h
        exact h ▸ ih e' hrec
    · cases h
      rfl

/-- Claim C10 (confirmed): when if_nametoindex cannot resolve the
interface's name, Interface::add_addresses returns success having performed
no address addition, and no error this function ever returns is the
NoInterface variant. -/
theorem C10_missing_ifindex_skip :
    ∀ (i : Interface) (env : NetEnv),
      (env.ifindex_of i.name = none → Interface.add_addresses i env = .ok [])
        ∧ (∀ e : NetError, Interface.add_addresses i env = .error e →
            isNoInterfaceErr e = false) := by
  intro i env
  constructor
  · intro h
    simp [Interface.add_addresses, h]
  · intro e h
    unfold Interface.add_addresses at h
    cases hl : env.ifindex_of i.name with
    | none => rw [hl] at h; cases h
    | some idx =>
      rw [hl] at h
      exact addAddrsGo_no_noInterface i.name env idx i.addresses e h

def envC10w : NetEnv := ⟨fun _ => none, fun _ _ => true⟩

def ifaceC10w : Interface := ⟨"eth9", [.V4 ⟨10, 0, 0, 9, 24⟩]⟩

/-- Claim C10, witness: an interface whose name resolves to no ifindex has
all its configured addresses skipped and the call succeeds. -/
theorem C10_missing_ifindex_skip_witness :
    Interface.add_addresses ifaceC10w envC10w = .ok [] :=
  (C10_missing_ifindex_skip ifaceC10w envC10w).1 rfl

end Netgen
